import Mathlib

/-!
Shallow embedding of `src/apps/broker/internal/networking/host.go` from the
flinkcoin/flink repository: the p2p host lifecycle (Start, Stop, Status),
the genesis-wait gate (awaitStateInitialized, isInitialized), and the peer
connection functions (connectWithPeer, connectWithAllPeers,
connectWithAllTrustedPeers, connectToBootnodes).

Modelling conventions:
- Peer identities, addresses and error values are abstract (Nat codes).
- External collaborators (the Peers reputation store, the libp2p transport,
  the ClockWaiter) are modelled as oracle functions supplied as parameters:
  `isBad` stands for `s.Peers().IsBad`, `transportConnect` for
  `s.host.Connect` (`none` = success, `some e` = the error), `clock` for the
  value delivered by `cfg.ClockWaiter.WaitForClock`.
- Logging calls at non-fatal levels are effect-free. A fatal-level log
  (logrus) terminates the process: no statement after it runs. This is
  modelled by the `exited` flag of the Host state; once it is set, the
  remaining statements of the function body are unreachable.
- Per-dial goroutines are modelled by recording every dial's outcome in a
  list: the batch functions return the list of per-peer outcomes, which in
  the source are only logged, never propagated.
- The fields of the `Host` struct that host.go uses but whose declarations
  live outside the provided file (startupErr, isPreGenesis, dv5Listener,
  genesisValidatorsRoot, ...) are included as the usages and the spec's
  HostState require.
-/

namespace FlinkP2P

/-- Abstract peer identity (libp2p peer.ID). -/
structure PeerId where
  val : Nat
deriving DecidableEq, Repr

/-- Abstract peer address info (libp2p peer.AddrInfo): an identity plus its
addresses. -/
structure AddrInfo where
  id : PeerId
  addrs : List Nat
deriving DecidableEq, Repr

/-- Error returned by connectWithPeer: either the wrap
`errors.Wrap(err, "refused to connect to bad peer")` of the reputation
error, or the dial error from `s.host.Connect` returned unmodified. -/
inductive ConnErr where
  | badPeer : Nat → ConnErr
  | dialFail : Nat → ConnErr
deriving DecidableEq, Repr

/-- Observable outcome of one connectWithPeer call: the returned error (if
any), whether `s.host.Connect` was invoked, and how many times
`BadResponsesScorer().Increment` was called for the peer. -/
structure ConnectOutcome where
  result : Option ConnErr
  connectCalled : Bool
  badResponseIncrements : Nat
deriving DecidableEq, Repr

/-- Embedding of `connectWithPeer` (host.go lines 389-406): skip when the
peer is the local identity; refuse (wrapping the reputation error) when the
reputation store reports the peer bad; otherwise dial, and on dial failure
increment the peer's bad-response score and return the dial error. -/
def connectWithPeer (selfId : PeerId) (isBad : PeerId → Option Nat)
    (transportConnect : PeerId → Option Nat) (info : AddrInfo) : ConnectOutcome :=
  if info.id = selfId then ⟨none, false, 0⟩
  else
    match isBad info.id with
    | some e => ⟨some (ConnErr.badPeer e), false, 0⟩
    | none =>
      match transportConnect info.id with
      | some e => ⟨some (ConnErr.dialFail e), true, 1⟩
      | none => ⟨none, true, 0⟩

/-- Embedding of `connectWithAllPeers` (host.go lines 373-387): one
non-blocking connectWithPeer per address info; each outcome is only logged,
so the batch never fails as a whole. The list collects the per-peer
outcomes. -/
def connectWithAllPeers (selfId : PeerId) (isBad : PeerId → Option Nat)
    (transportConnect : PeerId → Option Nat) : List AddrInfo → List ConnectOutcome
  | [] => []
  | info :: rest =>
      connectWithPeer selfId isBad transportConnect info ::
        connectWithAllPeers selfId isBad transportConnect rest

/-- Embedding of `connectWithAllTrustedPeers` (host.go lines 355-371): same
per-peer dial loop as connectWithAllPeers (each entry is additionally added
to the peer store, an external effect not tracked here). -/
def connectWithAllTrustedPeers (selfId : PeerId) (isBad : PeerId → Option Nat)
    (transportConnect : PeerId → Option Nat) : List AddrInfo → List ConnectOutcome
  | [] => []
  | info :: rest =>
      connectWithPeer selfId isBad transportConnect info ::
        connectWithAllTrustedPeers selfId isBad transportConnect rest

/-- One configured bootstrap entry as `connectToBootnodes` sees it: either
`enode.Parse` fails on the string (malformed, with the parse error code), or
it yields a node record with an optional TCP port (`none` when the record's
tcp entry is absent or cannot be loaded). -/
inductive BootEntry where
  | malformed : Nat → BootEntry
  | node : PeerId → Option Nat → BootEntry
deriving DecidableEq, Repr

/-- The loop body of `connectToBootnodes` (host.go lines 409-423): parse
each entry, returning the parse error immediately on failure; skip entries
whose record has no loadable tcp port; collect the rest in order. The
address info for a kept node carries its tcp port as its address, standing
for `convertToMultiAddr`. -/
def collectBootnodes : List BootEntry → Except Nat (List AddrInfo)
  | [] => Except.ok []
  | BootEntry.malformed e :: _ => Except.error e
  | BootEntry.node _ none :: rest => collectBootnodes rest
  | BootEntry.node p (some t) :: rest =>
      Except.map (fun l => AddrInfo.mk p [t] :: l) (collectBootnodes rest)

/-- Embedding of `connectToBootnodes` (host.go lines 408-427): resolve the
configured entries, then hand the resulting addresses to
connectWithAllPeers; a parse error is returned to the caller (Start). -/
def connectToBootnodes (selfId : PeerId) (isBad : PeerId → Option Nat)
    (transportConnect : PeerId → Option Nat) (entries : List BootEntry) :
    Except Nat (List ConnectOutcome) :=
  Except.map (connectWithAllPeers selfId isBad transportConnect)
    (collectBootnodes entries)

/-- Status errors of host.go lines 216-230: `errors.New("not running")`,
the recorded startup error, `errors.New("no genesis time set")`. -/
inductive StatusErr where
  | notRunning : StatusErr
  | startup : Nat → StatusErr
  | noGenesisTime : StatusErr
deriving DecidableEq, Repr

/-- The host service state: the fields of the `Host` struct that the
lifecycle methods in host.go read or write. `genesisTime = 0` models
`time.Time.IsZero`; `dv5Listener = some b` models a discovery listener
handle whose open flag is `b`; `cancelled` models the shared context
cancellation; `tasksRegistered` records whether the periodic maintenance
tasks of Start (lines 158-183) were registered; `exited` records that the
process was terminated by a fatal-level log (after which nothing runs). -/
structure Host where
  started : Bool
  isPreGenesis : Bool
  genesisTime : Nat
  genesisValidatorsRoot : List Nat
  startupErr : Option Nat
  dv5Listener : Option Bool
  trustedPeers : List PeerId
  tasksRegistered : Bool
  cancelled : Bool
  exited : Bool
deriving DecidableEq, Repr

/-- The state NewHost builds (host.go lines 68-79): not started, pre-genesis,
no genesis data, no startup error, no listener. -/
def initialHost : Host :=
  { started := false
    isPreGenesis := true
    genesisTime := 0
    genesisValidatorsRoot := []
    startupErr := none
    dv5Listener := none
    trustedPeers := []
    tasksRegistered := false
    cancelled := false
    exited := false }

/-- Embedding of `isInitialized` (host.go lines 431-433): genesis time is
set and the genesis validators root has length 32. -/
def isInitialized (s : Host) : Bool :=
  !(s.genesisTime == 0) && (s.genesisValidatorsRoot.length == 32)

/-- Embedding of `awaitStateInitialized` (host.go lines 336-353): when the
service is already initialized, return immediately without the external
clock wait; otherwise block on the ClockWaiter (whose delivered value is the
`clock` parameter; its failure is fatal to the process and not a state
transition) and record genesis time and validators root. The Bool reports
whether the external clock wait was entered. -/
def awaitStateInitialized (s : Host) (clock : Nat × List Nat) : Host × Bool :=
  if isInitialized s then (s, false)
  else ({ s with genesisTime := clock.1, genesisValidatorsRoot := clock.2 }, true)

/-- The inputs Start consumes from configuration and collaborators:
`noDiscovery` is `cfg.NoDiscovery`; `discoveryStart` the outcome of
`startDiscoveryV5` (a listener open flag, or the error); `bootstrapEntries`
is `cfg.Discv5BootStrapAddrs` as parsed entries; `staticPeers` the resolved
`cfg.StaticPeers`; `clock` the ClockWaiter value; `selfId`, `isBad` and
`transportConnect` as in connectWithPeer. -/
structure StartEnv where
  noDiscovery : Bool
  discoveryStart : Except Nat Bool
  bootstrapEntries : List BootEntry
  staticPeers : List AddrInfo
  clock : Nat × List Nat
  selfId : PeerId
  isBad : PeerId → Option Nat
  transportConnect : PeerId → Option Nat

/-- The tail of Start after a successful (or skipped) discovery bring-up
(host.go lines 141-201): mark started, register the static peers as trusted
when configured (their dials are fire-and-forget), and register the periodic
maintenance tasks. -/
def startRunning (s : Host) (env : StartEnv) : Host :=
  if env.staticPeers.isEmpty then
    { s with started := true, tasksRegistered := true }
  else
    { s with started := true
             trustedPeers := env.staticPeers.map AddrInfo.id
             tasksRegistered := true }

/-- The discovery section of Start (host.go lines 119-139): when discovery
is enabled, a failure of startDiscoveryV5 is logged at fatal level (line
126), which terminates the process; the assignment `s.startupErr = err` and
the return at lines 127-128 are dead code and never run, so startupErr is
left as it was. A failure of connectToBootnodes is logged at Error level
(live code) and does record the error in startupErr before Start returns.
On success the listener is kept and the running phase is entered. -/
def startAfterGenesis (s : Host) (env : StartEnv) : Host :=
  if env.noDiscovery then startRunning s env
  else
    match env.discoveryStart with
    | Except.error _ => { s with exited := true }
    | Except.ok listenerOpen =>
      match connectToBootnodes env.selfId env.isBad env.transportConnect
          env.bootstrapEntries with
      | Except.error e => { s with startupErr := some e }
      | Except.ok _ => startRunning { s with dv5Listener := some listenerOpen } env

/-- Embedding of `Start` (host.go lines 100-202): no-op when already
started; otherwise wait for genesis data, leave the pre-genesis phase, then
run the discovery section. The best-effort relay dial (lines 111-117) has
no effect on this state. -/
def Start (s : Host) (env : StartEnv) : Host :=
  if s.started then s
  else
    startAfterGenesis
      { (awaitStateInitialized s env.clock).1 with isPreGenesis := false } env

/-- Embedding of `Stop` (host.go lines 205-212): set started to false, close
the discovery listener when one is present, cancel the shared context, and
return nil. -/
def Stop (s : Host) : Host × Option Nat :=
  ({ s with started := false
            dv5Listener := Option.map (fun _ => false) s.dv5Listener
            cancelled := true }, none)

/-- Embedding of `Status` (host.go lines 216-230): healthy while
pre-genesis; then "not running" when not started; then the recorded startup
error; then "no genesis time set"; otherwise healthy. -/
def Status (s : Host) : Option StatusErr :=
  if s.isPreGenesis then none
  else if s.started = false then some StatusErr.notRunning
  else
    match s.startupErr with
    | some e => some (StatusErr.startup e)
    | none => if s.genesisTime = 0 then some StatusErr.noGenesisTime else none

/-! Helper lemmas shared by the connection theorems. -/

theorem connectWithAllPeers_append (selfId : PeerId)
    (isBad transportConnect : PeerId → Option Nat) (l1 l2 : List AddrInfo) :
    connectWithAllPeers selfId isBad transportConnect (l1 ++ l2) =
      connectWithAllPeers selfId isBad transportConnect l1 ++
        connectWithAllPeers selfId isBad transportConnect l2 := by
  induction l1 with
  | nil => rfl
  | cons a l ih => simp [connectWithAllPeers, ih]

theorem connectWithAllTrustedPeers_append (selfId : PeerId)
    (isBad transportConnect : PeerId → Option Nat) (l1 l2 : List AddrInfo) :
    connectWithAllTrustedPeers selfId isBad transportConnect (l1 ++ l2) =
      connectWithAllTrustedPeers selfId isBad transportConnect l1 ++
        connectWithAllTrustedPeers selfId isBad transportConnect l2 := by
  induction l1 with
  | nil => rfl
  | cons a l ih => simp [connectWithAllTrustedPeers, ih]

/-- C4: a peer of the trust set is never refused with the bad-peer error
(given the reputation collaborator's contract that trusted peers are never
reported bad), yet self-connection avoidance still applies: a trusted peer
equal to the local identity is not dialed at all. -/
theorem trustedPeerBypass (selfId : PeerId)
    (isBad transportConnect : PeerId → Option Nat) (trusted : List PeerId)
    (info : AddrInfo) (hContract : ∀ p ∈ trusted, isBad p = none)
    (hMem : info.id ∈ trusted) :
    (∀ e, (connectWithPeer selfId isBad transportConnect info).result ≠
      some (ConnErr.badPeer e)) ∧
    (info.id = selfId →
      connectWithPeer selfId isBad transportConnect info = ⟨none, false, 0⟩) := by
  constructor
  · intro e
    by_cases hself : info.id = selfId
    · simp [connectWithPeer, hself]
    · cases hdial : transportConnect info.id <;>
        simp [connectWithPeer, hself, hContract info.id hMem, hdial]
  · intro hself
    simp [connectWithPeer, hself]

theorem trustedPeerBypass_witness :
    (∀ e, (connectWithPeer ⟨0⟩ (fun _ => none) (fun _ => none)
      ⟨⟨1⟩, [5]⟩).result ≠ some (ConnErr.badPeer e)) ∧
    (AddrInfo.id ⟨⟨1⟩, [5]⟩ = ⟨0⟩ →
      connectWithPeer ⟨0⟩ (fun _ => none) (fun _ => none) ⟨⟨1⟩, [5]⟩ =
        ⟨none, false, 0⟩) :=
  trustedPeerBypass ⟨0⟩ (fun _ => none) (fun _ => none) [⟨1⟩] ⟨⟨1⟩, [5]⟩
    (fun _ _ => rfl) (by decide)

/-- C5: a peer the reputation collaborator reports bad is refused without
invoking Transport.Connect, with the distinguishable bad-peer error kind
wrapping the reputation error. -/
theorem badPeerRefused (selfId : PeerId)
    (isBad transportConnect : PeerId → Option Nat) (info : AddrInfo) (e : Nat)
    (h1 : info.id ≠ selfId) (h2 : isBad info.id = some e) :
    connectWithPeer selfId isBad transportConnect info =
      ⟨some (ConnErr.badPeer e), false, 0⟩ := by
  simp [connectWithPeer, h1, h2]

theorem badPeerRefused_witness :
    connectWithPeer ⟨0⟩ (fun _ => some 4) (fun _ => none) ⟨⟨1⟩, [2]⟩ =
      ⟨some (ConnErr.badPeer 4), false, 0⟩ :=
  badPeerRefused ⟨0⟩ (fun _ => some 4) (fun _ => none) ⟨⟨1⟩, [2]⟩ 4
    (by decide) rfl

/-- C6: a peer identity equal to the local identity is a no-op: no error, no
Transport.Connect call, no score change; and in any batch (trusted or not)
the self entry yields that no-op while the other entries are unaffected. -/
theorem selfConnectNoop (selfId : PeerId)
    (isBad transportConnect : PeerId → Option Nat) (info : AddrInfo)
    (h : info.id = selfId) :
    connectWithPeer selfId isBad transportConnect info = ⟨none, false, 0⟩ ∧
    (∀ pre post,
      connectWithAllPeers selfId isBad transportConnect (pre ++ info :: post) =
        connectWithAllPeers selfId isBad transportConnect pre ++
          ⟨none, false, 0⟩ ::
            connectWithAllPeers selfId isBad transportConnect post) ∧
    (∀ pre post,
      connectWithAllTrustedPeers selfId isBad transportConnect
          (pre ++ info :: post) =
        connectWithAllTrustedPeers selfId isBad transportConnect pre ++
          ⟨none, false, 0⟩ ::
            connectWithAllTrustedPeers selfId isBad transportConnect post) := by
  refine ⟨by simp [connectWithPeer, h], ?_, ?_⟩
  · intro pre post
    simp [connectWithAllPeers_append, connectWithAllPeers, connectWithPeer, h]
  · intro pre post
    simp [connectWithAllTrustedPeers_append, connectWithAllTrustedPeers,
      connectWithPeer, h]

theorem selfConnectNoop_witness :
    connectWithPeer ⟨0⟩ (fun _ => none) (fun _ => none) ⟨⟨0⟩, [1]⟩ =
      ⟨none, false, 0⟩ ∧
    (∀ pre post,
      connectWithAllPeers ⟨0⟩ (fun _ => none) (fun _ => none)
          (pre ++ AddrInfo.mk ⟨0⟩ [1] :: post) =
        connectWithAllPeers ⟨0⟩ (fun _ => none) (fun _ => none) pre ++
          ⟨none, false, 0⟩ ::
            connectWithAllPeers ⟨0⟩ (fun _ => none) (fun _ => none) post) ∧
    (∀ pre post,
      connectWithAllTrustedPeers ⟨0⟩ (fun _ => none) (fun _ => none)
          (pre ++ AddrInfo.mk ⟨0⟩ [1] :: post) =
        connectWithAllTrustedPeers ⟨0⟩ (fun _ => none) (fun _ => none) pre ++
          ⟨none, false, 0⟩ ::
            connectWithAllTrustedPeers ⟨0⟩ (fun _ => none) (fun _ => none)
              post) :=
  selfConnectNoop ⟨0⟩ (fun _ => none) (fun _ => none) ⟨⟨0⟩, [1]⟩ rfl

/-- C7: when the dial fails (the peer being neither the local identity nor
refused as bad), the peer's bad-response score is incremented exactly once
and the dial error is returned unmodified. -/
theorem dialFailureIncrementsOnce (selfId : PeerId)
    (isBad transportConnect : PeerId → Option Nat) (info : AddrInfo) (e : Nat)
    (h1 : info.id ≠ selfId) (h2 : isBad info.id = none)
    (h3 : transportConnect info.id = some e) :
    connectWithPeer selfId isBad transportConnect info =
      ⟨some (ConnErr.dialFail e), true, 1⟩ := by
  simp [connectWithPeer, h1, h2, h3]

theorem dialFailureIncrementsOnce_witness :
    connectWithPeer ⟨0⟩ (fun _ => none) (fun _ => some 9) ⟨⟨1⟩, [2]⟩ =
      ⟨some (ConnErr.dialFail 9), true, 1⟩ :=
  dialFailureIncrementsOnce ⟨0⟩ (fun _ => none) (fun _ => some 9) ⟨⟨1⟩, [2]⟩ 9
    (by decide) rfl rfl

/-! Bootstrap resolution lemmas. -/

theorem collectBootnodes_error_of_malformed (pre : List BootEntry) (e : Nat)
    (post : List BootEntry) (h : ∀ x ∈ pre, ∀ c, x ≠ BootEntry.malformed c) :
    collectBootnodes (pre ++ BootEntry.malformed e :: post) = Except.error e := by
  induction pre with
  | nil => rfl
  | cons hd tl ih =>
    have htl : ∀ x ∈ tl, ∀ c, x ≠ BootEntry.malformed c := fun x hx c =>
      h x (List.mem_cons_of_mem hd hx) c
    cases hd with
    | malformed c =>
      exact absurd rfl (h (BootEntry.malformed c) (List.mem_cons_self _ _) c)
    | node p tcp =>
      cases tcp with
      | none => simpa [collectBootnodes] using ih htl
      | some t => simp [collectBootnodes, ih htl, Except.map]

/-- C1 counterexample: one malformed bootstrap entry makes connectToBootnodes
fail as a whole; the well-formed entry carrying a tcp port is not dialed. -/
theorem bootnodeParseFailureCounterexample :
    connectToBootnodes ⟨0⟩ (fun _ => none) (fun _ => none)
      [BootEntry.malformed 7, BootEntry.node ⟨1⟩ (some 9000)] =
      Except.error 7 := rfl

/-- C1 amended: a parse failure on a bootstrap entry aborts connectToBootnodes
as a whole: the first parse error is returned to the caller and none of the
entries (the valid ones included) are dialed. -/
theorem bootnodeParseFailureAbortsAll (selfId : PeerId)
    (isBad transportConnect : PeerId → Option Nat) (pre : List BootEntry)
    (e : Nat) (post : List BootEntry)
    (h : ∀ x ∈ pre, ∀ c, x ≠ BootEntry.malformed c) :
    connectToBootnodes selfId isBad transportConnect
      (pre ++ BootEntry.malformed e :: post) = Except.error e := by
  simp [connectToBootnodes, collectBootnodes_error_of_malformed pre e post h,
    Except.map]

theorem bootnodeParseFailureAbortsAll_witness :
    connectToBootnodes ⟨0⟩ (fun _ => none) (fun _ => none)
      ([BootEntry.node ⟨2⟩ (some 1)] ++ BootEntry.malformed 5 ::
        [BootEntry.node ⟨3⟩ (some 2)]) = Except.error 5 :=
  bootnodeParseFailureAbortsAll ⟨0⟩ (fun _ => none) (fun _ => none)
    [BootEntry.node ⟨2⟩ (some 1)] 5 [BootEntry.node ⟨3⟩ (some 2)]
    (by
      intro x hx c
      rcases List.mem_singleton.mp hx with rfl
      intro hcon
      exact BootEntry.noConfusion hcon)

/-- The bootstrap entries that carry a tcp port, as the address infos
connectToBootnodes dials, in order. -/
def dialableInfos (entries : List BootEntry) : List AddrInfo :=
  entries.filterMap fun x =>
    match x with
    | BootEntry.node p (some t) => some (AddrInfo.mk p [t])
    | _ => none

theorem connectWithAllPeers_eq_map (selfId : PeerId)
    (isBad transportConnect : PeerId → Option Nat) (infos : List AddrInfo) :
    connectWithAllPeers selfId isBad transportConnect infos =
      infos.map (connectWithPeer selfId isBad transportConnect) := by
  induction infos with
  | nil => rfl
  | cons a l ih => simp [connectWithAllPeers, ih]

theorem collectBootnodes_ok_of_wellFormed (entries : List BootEntry)
    (h : ∀ x ∈ entries, ∀ c, x ≠ BootEntry.malformed c) :
    collectBootnodes entries = Except.ok (dialableInfos entries) := by
  induction entries with
  | nil => rfl
  | cons hd tl ih =>
    have htl : ∀ x ∈ tl, ∀ c, x ≠ BootEntry.malformed c := fun x hx c =>
      h x (List.mem_cons_of_mem hd hx) c
    cases hd with
    | malformed c =>
      exact absurd rfl (h (BootEntry.malformed c) (List.mem_cons_self _ _) c)
    | node p tcp =>
      cases tcp with
      | none => simpa [collectBootnodes, dialableInfos] using ih htl
      | some t => simp [collectBootnodes, dialableInfos, ih htl, Except.map]

/-- C8: when every bootstrap entry parses, connectToBootnodes dials exactly
the entries that carry a tcp port (in order, as address infos), and the
dialed set is characterized by tcp-port membership: entries lacking a tcp
port are skipped, the others are converted to addresses and dialed. -/
theorem bootnodesSkipMissingTcp (selfId : PeerId)
    (isBad transportConnect : PeerId → Option Nat) (entries : List BootEntry)
    (h : ∀ x ∈ entries, ∀ c, x ≠ BootEntry.malformed c) :
    connectToBootnodes selfId isBad transportConnect entries =
      Except.ok ((dialableInfos entries).map
        (connectWithPeer selfId isBad transportConnect)) ∧
    (∀ info, info ∈ dialableInfos entries ↔
      ∃ t, BootEntry.node info.id (some t) ∈ entries ∧ info.addrs = [t]) := by
  constructor
  · simp [connectToBootnodes, collectBootnodes_ok_of_wellFormed entries h,
      Except.map, connectWithAllPeers_eq_map]
  · intro info
    constructor
    · intro hmem
      rcases List.mem_filterMap.mp hmem with ⟨x, hx, hfx⟩
      cases x with
      | malformed c => simp at hfx
      | node p tcp =>
        cases tcp with
        | none => simp at hfx
        | some t =>
          simp only [Option.some.injEq] at hfx
          subst hfx
          exact ⟨t, hx, rfl⟩
    · rintro ⟨t, hmem, haddr⟩
      refine List.mem_filterMap.mpr ⟨BootEntry.node info.id (some t), hmem, ?_⟩
      cases info with
      | mk i a => simp at haddr; simp [haddr]

theorem bootnodesSkipMissingTcp_witness :
    connectToBootnodes ⟨0⟩ (fun _ => none) (fun _ => none)
      [BootEntry.node ⟨1⟩ (some 4), BootEntry.node ⟨2⟩ none,
        BootEntry.node ⟨3⟩ (some 6)] =
      Except.ok ((dialableInfos
        [BootEntry.node ⟨1⟩ (some 4), BootEntry.node ⟨2⟩ none,
          BootEntry.node ⟨3⟩ (some 6)]).map
        (connectWithPeer ⟨0⟩ (fun _ => none) (fun _ => none))) ∧
    (∀ info, info ∈ dialableInfos
        [BootEntry.node ⟨1⟩ (some 4), BootEntry.node ⟨2⟩ none,
          BootEntry.node ⟨3⟩ (some 6)] ↔
      ∃ t, BootEntry.node info.id (some t) ∈
          [BootEntry.node ⟨1⟩ (some 4), BootEntry.node ⟨2⟩ none,
            BootEntry.node ⟨3⟩ (some 6)] ∧ info.addrs = [t]) :=
  bootnodesSkipMissingTcp ⟨0⟩ (fun _ => none) (fun _ => none)
    [BootEntry.node ⟨1⟩ (some 4), BootEntry.node ⟨2⟩ none,
      BootEntry.node ⟨3⟩ (some 6)]
    (by
      intro x hx c
      simp only [List.mem_cons, List.not_mem_nil, or_false] at hx
      rcases hx with rfl | rfl | rfl <;> intro hcon <;>
        exact BootEntry.noConfusion hcon)

/-! Lifecycle lemmas. -/

theorem awaitStateInitialized_started (s : Host) (c : Nat × List Nat) :
    ((awaitStateInitialized s c).1).started = s.started := by
  unfold awaitStateInitialized
  split <;> rfl

theorem awaitStateInitialized_tasksRegistered (s : Host) (c : Nat × List Nat) :
    ((awaitStateInitialized s c).1).tasksRegistered = s.tasksRegistered := by
  unfold awaitStateInitialized
  split <;> rfl

theorem startRunning_isPreGenesis (s : Host) (env : StartEnv) :
    (startRunning s env).isPreGenesis = s.isPreGenesis := by
  unfold startRunning
  split <;> rfl

theorem startAfterGenesis_isPreGenesis (s : Host) (env : StartEnv) :
    (startAfterGenesis s env).isPreGenesis = s.isPreGenesis := by
  unfold startAfterGenesis
  split
  · exact startRunning_isPreGenesis s env
  split
  · rfl
  split
  · rfl
  · exact startRunning_isPreGenesis _ _

theorem status_of_running (r : Host) (h1 : r.isPreGenesis = false)
    (h2 : r.started = true) :
    (Status r = none ↔ (r.genesisTime ≠ 0 ∧ r.startupErr = none)) := by
  cases he : r.startupErr <;>
    by_cases hg : r.genesisTime = 0 <;> simp [Status, h1, h2, he, hg]

/-- C2: Status reports healthy whenever the service is pre-genesis,
regardless of whether Start ran; and once a run of Start has completed
successfully (started became true), Status reports healthy exactly when the
genesis time is set and no startup error was recorded. -/
theorem statusContract (s : Host) (env : StartEnv) :
    (s.isPreGenesis = true → Status s = none) ∧
    (s.started = false → (Start s env).started = true →
      (Status (Start s env) = none ↔
        ((Start s env).genesisTime ≠ 0 ∧ (Start s env).startupErr = none))) := by
  constructor
  · intro h
    simp [Status, h]
  · intro h1 h2
    have hpre : (Start s env).isPreGenesis = false := by
      unfold Start
      rw [if_neg (by simp [h1]), startAfterGenesis_isPreGenesis]
    exact status_of_running _ hpre h2

/-- Concrete Start environment whose discovery listener fails to start. -/
def envDiscoveryFail : StartEnv :=
  { noDiscovery := false
    discoveryStart := Except.error 3
    bootstrapEntries := []
    staticPeers := []
    clock := (5, List.replicate 32 0)
    selfId := ⟨0⟩
    isBad := fun _ => none
    transportConnect := fun _ => none }

/-- C3, evaluated at the failing input: on a fresh host with discovery
enabled and a failing discovery listener, the fatal-level log at host.go
line 126 terminates the process before the startupErr assignment at line
127 (dead code): startupErr is never set, started stays false and no
maintenance task is registered — Status can therefore never surface this
failure, contradicting the claim that startupErr is set. -/
theorem discoveryFailureTerminatesProcess :
    (Start initialHost envDiscoveryFail).exited = true ∧
    (Start initialHost envDiscoveryFail).startupErr = none ∧
    (Start initialHost envDiscoveryFail).started = false ∧
    (Start initialHost envDiscoveryFail).tasksRegistered = false :=
  ⟨rfl, rfl, rfl, rfl⟩

/-- C9 counterexample: on a freshly constructed (still pre-genesis) host,
Stop leaves started false, yet the subsequent Status reports healthy rather
than the "not running" error, because the pre-genesis check comes first. -/
theorem stopThenStatusCounterexample :
    ((Stop initialHost).1).started = false ∧
    Status ((Stop initialHost).1) = none := ⟨rfl, rfl⟩

/-- C9 amended: Stop returns nil, sets started to false, closes the
discovery listener when one is present and cancels the shared context; a
subsequent Status reports the "not running" error provided the service has
left the pre-genesis phase (while still pre-genesis, Status stays healthy). -/
theorem stopBehavior (s : Host) :
    (Stop s).2 = none ∧
    ((Stop s).1).started = false ∧
    ((Stop s).1).dv5Listener = Option.map (fun _ => false) s.dv5Listener ∧
    ((Stop s).1).cancelled = true ∧
    (s.isPreGenesis = false →
      Status ((Stop s).1) = some StatusErr.notRunning) := by
  refine ⟨rfl, rfl, rfl, rfl, fun h => ?_⟩
  simp [Stop, Status, h]

/-- C10: the service counts as initialized exactly when the genesis time is
nonzero and the genesis validators root has length exactly 32; and the
genesis-wait gate skips the external clock wait exactly when the service is
already initialized. -/
theorem genesisGateIff (s : Host) (clock : Nat × List Nat) :
    (isInitialized s = true ↔
      (s.genesisTime ≠ 0 ∧ s.genesisValidatorsRoot.length = 32)) ∧
    ((awaitStateInitialized s clock).2 = false ↔ isInitialized s = true) := by
  constructor
  · simp [isInitialized]
  · unfold awaitStateInitialized
    by_cases h : isInitialized s = true <;> simp [h]

end FlinkP2P
